import Mathlib

/-!
Shallow embedding of the FlowScriptX smart-home command validator
(src/FlowScriptX.py and src/flowscript2.py): the regex tokenizer, the
shape-based syntax validator and the two diagnostic chains, together with
theorems about their behaviour.

Modelling notes, stated once here:
* Python regexes are embedded as explicit matching functions. The scanner
  semantics of `re.finditer` over the alternation `TOKEN_REGEX` is: at each
  position try the alternatives in declaration order, first full match wins
  (no longest-match rule), advance past the match; on no match advance one
  character.
* `re.IGNORECASE` is given to the whole composite pattern, so every literal
  letter of every alternative matches case-insensitively; this is modelled by
  ASCII case folding (`lowerN`), which agrees with Python on the ASCII inputs
  considered here.
* `\d` is modelled as the ASCII digits 0..9 (Python would also accept other
  Unicode decimal digits; no claim depends on those).
* The separate `re.search(r"(\d{1,2}):(\d{2}) (AM|PM)", command)` inside the
  diagnostic chain is compiled without IGNORECASE and is therefore modelled
  case-sensitively (`timeAtCS`, `searchTime`).
-/

/-- ASCII lowercase on code points: the fold IGNORECASE applies to letters. -/
def lowerN (n : Nat) : Nat := if 65 ≤ n ∧ n ≤ 90 then n + 32 else n

/-- ASCII lowercase on characters, model of Python `str.lower()`. -/
def lowerChar (c : Char) : Char :=
  if 65 ≤ c.toNat ∧ c.toNat ≤ 90 then Char.ofNat (c.toNat + 32) else c

/-- Case-insensitive character comparison (IGNORECASE matching). -/
def ciEq (a b : Char) : Bool := lowerN a.toNat == lowerN b.toNat

/-- Model of the regex class `\d` (ASCII digits). -/
def isDig (c : Char) : Bool := decide (48 ≤ c.toNat ∧ c.toNat ≤ 57)

/-- Model of Python `int()` on a string of digits. -/
def digitsToNat (ds : List Char) : Nat :=
  ds.foldl (fun acc c => acc * 10 + (c.toNat - 48)) 0

/-- Case-sensitive: does `p` start the list `s`? -/
def startsWithCS : List Char → List Char → Bool
  | [], _ => true
  | _ :: _, [] => false
  | p :: ps, c :: cs => p == c && startsWithCS ps cs

/-- Case-sensitive substring test, model of Python `needle in haystack`. -/
def containsSub (needle : List Char) : List Char → Bool
  | [] => startsWithCS needle []
  | c :: cs => startsWithCS needle (c :: cs) || containsSub needle cs

/-- Model of Python `s.lower()` on strings. -/
def pyLower (s : String) : String := String.mk (s.data.map lowerChar)

/-- Match one literal alternative case-insensitively at the head of `s`,
returning the consumed lexeme (as it appears in `s`) and the remainder. -/
def matchLit : List Char → List Char → Option (List Char × List Char)
  | [], s => some ([], s)
  | _ :: _, [] => none
  | p :: ps, c :: cs =>
    if ciEq c p then
      match matchLit ps cs with
      | some lr => some (c :: lr.1, lr.2)
      | none => none
    else none

/-- Try literal alternatives in declaration order; first match wins, as in a
Python regex alternation. -/
def matchAlts : List (List Char) → List Char → Option (List Char × List Char)
  | [], _ => none
  | a :: alts, s =>
    match matchLit a s with
    | some lr => some lr
    | none => matchAlts alts s

/-- EVENT: `on|schedule|if|repeat|activate` (FlowScriptX.py line 7). -/
def eventAlts : List (List Char) :=
  ["on".data, "schedule".data, "if".data, "repeat".data, "activate".data]

/-- SENSOR: `motion|temperature|humidity|door|sound|triggered` (line 8). -/
def sensorAlts : List (List Char) :=
  ["motion".data, "temperature".data, "humidity".data, "door".data,
   "sound".data, "triggered".data]

/-- DEVICE: `lights|AC|fan|door|alarm|sprinkler|watering` (line 9). -/
def deviceAlts : List (List Char) :=
  ["lights".data, "AC".data, "fan".data, "door".data, "alarm".data,
   "sprinkler".data, "watering".data]

/-- OPERATION: `turn on|turn off|increase|decrease|open|close|start|check`
(line 10). -/
def operationAlts : List (List Char) :=
  ["turn on".data, "turn off".data, "increase".data, "decrease".data,
   "open".data, "close".data, "start".data, "check".data]

/-- MODE: `night mode|vacation mode|silent mode` (line 11). -/
def modeAlts : List (List Char) :=
  ["night mode".data, "vacation mode".data, "silent mode".data]

/-- OPERATOR: `>|<|>=|<=|==` (line 15), alternatives in declaration order. -/
def operatorAlts : List (List Char) :=
  [">".data, "<".data, ">=".data, "<=".data, "==".data]

/-- THEN: `then` (line 16). -/
def thenAlts : List (List Char) := ["then".data]

/-- FROM_TO: `from|to` (line 17). -/
def fromToAlts : List (List Char) := ["from".data, "to".data]

/-- DETECTED: `detected` (line 18). -/
def detectedAlts : List (List Char) := ["detected".data]

/-- AT: `at` (line 19). -/
def atAlts : List (List Char) := ["at".data]

/-- EVERY: `every` (line 20). -/
def everyAlts : List (List Char) := ["every".data]

/-- `seconds|minutes|hours`, the unit group of TIME_INTERVAL (line 13). -/
def unitAlts : List (List Char) :=
  ["seconds".data, "minutes".data, "hours".data]

/-- Maximal prefix of `\d` characters and the remainder (greedy `\d+`). -/
def digitRun : List Char → List Char × List Char
  | [] => ([], [])
  | c :: cs =>
    if isDig c then (c :: (digitRun cs).1, (digitRun cs).2) else ([], c :: cs)

/-- After the hour digits of TIME: `:` then `\d{2}` then a space then
`(AM|PM)` (case-insensitively, since IGNORECASE covers the whole regex).
Returns the consumed characters and the remainder. -/
def timeTail (s : List Char) : Option (List Char × List Char) :=
  match s with
  | c :: rest =>
    if c == ':' then
      match rest with
      | m1 :: m2 :: sp :: a :: b :: rest2 =>
        if isDig m1 && isDig m2 && sp == ' ' &&
            (ciEq a 'A' || ciEq a 'P') && ciEq b 'M' then
          some ([c, m1, m2, sp, a, b], rest2)
        else none
      | _ => none
    else none
  | [] => none

/-- TIME: `\d{1,2}:\d{2} (AM|PM)` (line 12). The hour `\d{1,2}` is greedy
with backtracking: two digits are tried first, then one. -/
def timeMatch (s : List Char) : Option (List Char × List Char) :=
  match s with
  | d1 :: rest =>
    if isDig d1 then
      match rest with
      | d2 :: rest2 =>
        if isDig d2 then
          match timeTail rest2 with
          | some tl => some (d1 :: d2 :: tl.1, tl.2)
          | none =>
            match timeTail rest with
            | some tl => some (d1 :: tl.1, tl.2)
            | none => none
        else
          match timeTail rest with
          | some tl => some (d1 :: tl.1, tl.2)
          | none => none
      | [] => none
    else none
  | [] => none

/-- TIME_INTERVAL: `\d+ (seconds|minutes|hours)` (line 13). The greedy `\d+`
needs no backtracking: shortening the digit run leaves a digit where the
space is required. -/
def timeIntervalMatch (s : List Char) : Option (List Char × List Char) :=
  match digitRun s with
  | ([], _) => none
  | (d :: ds, rest) =>
    match rest with
    | sp :: rest2 =>
      if sp == ' ' then
        match matchAlts unitAlts rest2 with
        | some u => some ((d :: ds) ++ sp :: u.1, u.2)
        | none => none
      else none
    | [] => none

/-- NUMBER: `\d+` (line 14). -/
def numberMatch (s : List Char) : Option (List Char × List Char) :=
  match digitRun s with
  | ([], _) => none
  | (d :: ds, rest) => some (d :: ds, rest)

/-- A lexical rule body: lexeme consumed and remainder, or no match. -/
abbrev Matcher : Type := List Char → Option (List Char × List Char)

/-- TOKEN_PATTERNS in declaration order (FlowScriptX.py lines 6-21), the
order the compiled alternation TOKEN_REGEX tries them in (line 24). -/
def rules : List (String × Matcher) :=
  [("EVENT", matchAlts eventAlts),
   ("SENSOR", matchAlts sensorAlts),
   ("DEVICE", matchAlts deviceAlts),
   ("OPERATION", matchAlts operationAlts),
   ("MODE", matchAlts modeAlts),
   ("TIME", timeMatch),
   ("TIME_INTERVAL", timeIntervalMatch),
   ("NUMBER", numberMatch),
   ("OPERATOR", matchAlts operatorAlts),
   ("THEN", matchAlts thenAlts),
   ("FROM_TO", matchAlts fromToAlts),
   ("DETECTED", matchAlts detectedAlts),
   ("AT", matchAlts atAlts),
   ("EVERY", matchAlts everyAlts)]

/-- The same rule table with DEVICE moved ahead of SENSOR: a reordering used
to show that rule priority decides the classification of `door`. -/
def rulesDeviceFirst : List (String × Matcher) :=
  [("EVENT", matchAlts eventAlts),
   ("DEVICE", matchAlts deviceAlts),
   ("SENSOR", matchAlts sensorAlts),
   ("OPERATION", matchAlts operationAlts),
   ("MODE", matchAlts modeAlts),
   ("TIME", timeMatch),
   ("TIME_INTERVAL", timeIntervalMatch),
   ("NUMBER", numberMatch),
   ("OPERATOR", matchAlts operatorAlts),
   ("THEN", matchAlts thenAlts),
   ("FROM_TO", matchAlts fromToAlts),
   ("DETECTED", matchAlts detectedAlts),
   ("AT", matchAlts atAlts),
   ("EVERY", matchAlts everyAlts)]

/-- Tag a rule's match with its group name, or fall through to the rest of
the alternation. -/
def withName (name : String) (r : Option (List Char × List Char))
    (next : Option (String × List Char × List Char)) :
    Option (String × List Char × List Char) :=
  match r with
  | some lr => some (name, lr.1, lr.2)
  | none => next

/-- One attempt of TOKEN_REGEX at a position: the first rule whose pattern
matches there wins (`match.lastgroup` names that rule). -/
def firstMatchIn : List (String × Matcher) → List Char →
    Option (String × List Char × List Char)
  | [], _ => none
  | (name, m) :: rs, s => withName name (m s) (firstMatchIn rs s)

/-- The scan loop of `TOKEN_REGEX.finditer`: emit the match at the current
position and continue after it, or skip one unmatched character. Every match
consumes at least one character, so fuel equal to the input length is exact. -/
def tokenizeAux : Nat → List Char → List (String × List Char)
  | 0, _ => []
  | _ + 1, [] => []
  | fuel + 1, c :: cs =>
    match firstMatchIn rules (c :: cs) with
    | some nlr => (nlr.1, nlr.2.1) :: tokenizeAux fuel nlr.2.2
    | none => tokenizeAux fuel cs

/-- A token as the Python code builds it: `(match.lastgroup, value)`. -/
abbrev Token : Type := String × String

/-- `tokenize` (FlowScriptX.py lines 27-33). -/
def tokenize (command : String) : List Token :=
  (tokenizeAux command.data.length command.data).map
    (fun t => (t.1, String.mk t.2))

/-- `match_pattern` (lines 36-38). -/
def match_pattern (tokens : List Token) (expected_pattern : List String) :
    Bool × String :=
  let extracted_types := tokens.map Prod.fst
  (extracted_types == expected_pattern,
    if extracted_types == expected_pattern then "Valid command."
    else "Syntax error in command.")

/-- `validate_event` (line 41). -/
def validate_event (tokens : List Token) : Bool × String :=
  match_pattern tokens ["EVENT", "SENSOR", "DETECTED", "THEN", "OPERATION", "DEVICE"]

/-- `validate_schedule` (line 44). -/
def validate_schedule (tokens : List Token) : Bool × String :=
  match_pattern tokens ["EVENT", "OPERATION", "DEVICE", "AT", "TIME"]

/-- `validate_condition` (line 47). -/
def validate_condition (tokens : List Token) : Bool × String :=
  match_pattern tokens ["EVENT", "SENSOR", "OPERATOR", "NUMBER", "THEN", "OPERATION", "DEVICE"]

/-- `validate_loop` (line 50). -/
def validate_loop (tokens : List Token) : Bool × String :=
  match_pattern tokens ["EVENT", "OPERATION", "SENSOR", "EVERY", "TIME_INTERVAL"]

/-- `validate_mode` (line 53). -/
def validate_mode (tokens : List Token) : Bool × String :=
  match_pattern tokens ["EVENT", "MODE", "FROM_TO", "TIME", "FROM_TO", "TIME"]

/-- `validate_syntax` (lines 57-73). -/
def validate_syntax (tokens : List Token) : Bool × String :=
  match tokens with
  | [] => (false, "Empty command.")
  | t :: _ =>
    let first_token := pyLower t.2
    if first_token == "on" then validate_event tokens
    else if first_token == "schedule" then validate_schedule tokens
    else if first_token == "if" then validate_condition tokens
    else if first_token == "repeat" then validate_loop tokens
    else if first_token == "activate" then validate_mode tokens
    else (false, "Invalid command start.")

/-- After the hour digits of the diagnostic regex
`(\d{1,2}):(\d{2}) (AM|PM)`: case-SENSITIVE meridiem (this regex is compiled
without IGNORECASE). Returns the two minute digits. -/
def timeTailCS : List Char → Option (List Char)
  | c :: m1 :: m2 :: sp :: a :: b :: _ =>
    if c == ':' && isDig m1 && isDig m2 && sp == ' ' &&
        (a == 'A' || a == 'P') && b == 'M' then
      some [m1, m2]
    else none
  | _ => none

/-- One attempt of the diagnostic time regex at a position, giving
`(int(hours), int(minutes))`; the hour `\d{1,2}` backtracks from two digits
to one, as in `timeMatch`. -/
def timeAtCS : List Char → Option (Nat × Nat)
  | d1 :: rest =>
    if isDig d1 then
      match rest with
      | d2 :: rest2 =>
        if isDig d2 then
          match timeTailCS rest2 with
          | some ms => some (digitsToNat [d1, d2], digitsToNat ms)
          | none =>
            match timeTailCS rest with
            | some ms => some (digitsToNat [d1], digitsToNat ms)
            | none => none
        else
          match timeTailCS rest with
          | some ms => some (digitsToNat [d1], digitsToNat ms)
          | none => none
      | [] => none
    else none
  | [] => none

/-- `re.search(r"(\d{1,2}):(\d{2}) (AM|PM)", command)` (FlowScriptX.py
line 96): the LEFTMOST match only, groups converted by `int`. -/
def searchTime : List Char → Option (Nat × Nat)
  | [] => none
  | c :: cs =>
    match timeAtCS (c :: cs) with
    | some r => some r
    | none => searchTime cs

/-- Is the time-like match starting exactly here out of range? -/
def badAt (s : List Char) : Bool :=
  match timeAtCS s with
  | some hm => decide (¬(1 ≤ hm.1 ∧ hm.1 ≤ 12) ∨ ¬(0 ≤ hm.2 ∧ hm.2 ≤ 59))
  | none => false

/-- Does ANY position of the raw text start an out-of-range `H:MM AM/PM`
substring? (What claim C3 reads the diagnostic as; the code only inspects
the leftmost match.) -/
def anyBadTime : List Char → Bool
  | [] => false
  | c :: cs => badAt (c :: cs) || anyBadTime cs

/-- Rule (a): `"when" in command` (FlowScriptX.py line 80). -/
def condWhen (command : String) : Bool :=
  containsSub "when".data command.data

/-- Rule (b): `"OPERATOR" in token_types and "NUMBER" not in token_types`
(line 84). -/
def condOpNoNum (tokens : List Token) : Bool :=
  (tokens.map Prod.fst).contains "OPERATOR" &&
    !((tokens.map Prod.fst).contains "NUMBER")

/-- Rule (c): `"if" in command and "then" not in [t[0] for t in tokens]`
(line 88). Note `t[0]` ranges over the UPPERCASE kind tags, so the second
conjunct compares lowercase "then" against them. -/
def condIfNoThen (command : String) (tokens : List Token) : Bool :=
  containsSub "if".data command.data &&
    !((tokens.map Prod.fst).contains "then")

/-- Rule (d): an OPERATION token with value "open" and a DEVICE token with
value "lights" (line 92). -/
def condOpenLights (tokens : List Token) : Bool :=
  (tokens.any fun t => t.1 == "OPERATION" && t.2 == "open") &&
    (tokens.any fun t => t.1 == "DEVICE" && t.2 == "lights")

/-- Rule (e): the leftmost `H:MM AM/PM` match of the raw text exists and has
`not (1 <= hours <= 12) or not (0 <= minutes <= 59)` (lines 96-99). -/
def condBadTime (command : String) : Bool :=
  match searchTime command.data with
  | some hm => decide (¬(1 ≤ hm.1 ∧ hm.1 ≤ 12) ∨ ¬(0 ≤ hm.2 ∧ hm.2 ≤ 59))
  | none => false

/-- Rule (f): `"activate" in command and ("from" not in command or "to" not
in command)` (line 103). -/
def condActivateNoFromTo (command : String) : Bool :=
  containsSub "activate".data command.data &&
    (!(containsSub "from".data command.data) ||
      !(containsSub "to".data command.data))

/-- Rule (g): `"on" in command and "then" not in [t[0] for t in tokens]`
(line 107). -/
def condOnNoThen (command : String) (tokens : List Token) : Bool :=
  containsSub "on".data command.data &&
    !((tokens.map Prod.fst).contains "then")

/-- Rule (h): `"repeat" in command and "every" not in [t[0] for t in tokens]`
(line 111). -/
def condRepeatNoEvery (command : String) (tokens : List Token) : Bool :=
  containsSub "repeat".data command.data &&
    !((tokens.map Prod.fst).contains "every")

/-- Every literal alternative of a keyword rule starts with a letter: the
side condition under which no keyword rule can match at a digit. -/
def headLow : List Char → Bool
  | [] => false
  | l :: _ => decide (97 ≤ lowerN l.toNat)

namespace FlowScriptX

/-- `validate_invalid_command` of FlowScriptX.py (lines 76-114): rules
(a)-(h) in order, first hit wins, then the generic fallback. -/
def validate_invalid_command (command : String) (tokens : List Token) : String :=
  if condWhen command then
    "'when' is not a valid keyword. Correct syntax: 'on motion detected then turn on lights'."
  else if condOpNoNum tokens then
    "Missing value after operator. Ensure a numeric condition, e.g., 'if temperature > 30 then turn on AC'."
  else if condIfNoThen command tokens then
    "The 'then' keyword is required before 'start AC'."
  else if condOpenLights tokens then
    "'open lights' is not a valid action. The correct operation is 'turn on lights'."
  else if condBadTime command then
    "Invalid time format. Ensure hours are between 1-12 and minutes between 00-59."
  else if condActivateNoFromTo command then
    "The 'from' and 'to' keywords are missing. Correct syntax: 'activate silent mode from 10 PM to 6 AM'."
  else if condOnNoThen command tokens then
    "The 'then' keyword is required. Correct syntax: 'on motion detected then turn on lights'."
  else if condRepeatNoEvery command tokens then
    "The 'every' keyword is required. Correct syntax: 'repeat check temperature every 10 minutes'."
  else
    "Error: Invalid command. Ensure your syntax follows the required format."

end FlowScriptX

namespace Flowscript2

/-- `validate_invalid_command` of flowscript2.py (lines 78-102): the same
chain WITHOUT rules (b), (g) and (h). -/
def validate_invalid_command (command : String) (tokens : List Token) : String :=
  if condWhen command then
    "'when' is not a valid keyword. Correct syntax: 'on motion detected then turn on lights'."
  else if condIfNoThen command tokens then
    "The 'then' keyword is required before 'start AC'."
  else if condOpenLights tokens then
    "'open lights' is not a valid action. The correct operation is 'turn on lights'."
  else if condBadTime command then
    "Invalid time format. Ensure hours are between 1-12 and minutes between 00-59."
  else if condActivateNoFromTo command then
    "The 'from' and 'to' keywords are missing. Correct syntax: 'activate silent mode from 10 PM to 6 AM'."
  else
    "Error: Invalid command. Ensure your syntax follows the required format."

end Flowscript2

/-- Per-line handling of the main loop (FlowScriptX.py lines 140-152): the
message actually reported for an input is `validate_syntax`'s on success and
`validate_invalid_command`'s on failure. -/
def reportedResult (input : String) : Bool × String :=
  let tokens := tokenize input
  let vm := validate_syntax tokens
  if vm.1 then (true, vm.2)
  else (false, FlowScriptX.validate_invalid_command input tokens)

/-- `isDig` unpacked to its code-point bounds. -/
theorem isDig_bounds {c : Char} (h : isDig c = true) :
    48 ≤ c.toNat ∧ c.toNat ≤ 57 :=
  of_decide_eq_true h

/-- Case folding fixes digits. -/
theorem lowerN_digit {c : Char} (h : isDig c = true) :
    lowerN c.toNat = c.toNat := by
  have hb := isDig_bounds h
  unfold lowerN
  rw [if_neg (show ¬(65 ≤ c.toNat ∧ c.toNat ≤ 90) by omega)]

/-- A digit is case-insensitively different from any character whose
lowercase form is a letter. -/
theorem ciEq_digit_low {c l : Char} (hc : isDig c = true)
    (hl : 97 ≤ lowerN l.toNat) : ciEq c l = false := by
  have hb := isDig_bounds hc
  unfold ciEq
  rw [lowerN_digit hc, beq_eq_false_iff_ne]
  omega

/-- No keyword rule (alternatives all starting with letters) matches at a
position holding a digit. -/
theorem matchAlts_digit_none {c : Char} {cs : List Char} (hc : isDig c = true) :
    ∀ alts : List (List Char), alts.all headLow = true →
      matchAlts alts (c :: cs) = none := by
  intro alts
  induction alts with
  | nil => intro _; rfl
  | cons a as ih =>
    intro hall
    rw [List.all_cons, Bool.and_eq_true] at hall
    obtain ⟨ha, has⟩ := hall
    cases a with
    | nil => exact absurd ha (by decide)
    | cons l ps =>
      have hl : 97 ≤ lowerN l.toNat := of_decide_eq_true ha
      simp [matchAlts, matchLit, ciEq_digit_low hc hl, ih has]

/-- A digit is not the colon character. -/
theorem digit_ne_colon {c : Char} (h : isDig c = true) : (c == ':') = false := by
  cases hq : c == ':' with
  | false => rfl
  | true =>
    have hcc : c = ':' := eq_of_beq hq
    subst hcc
    exact absurd h (by decide)

/-- `digitRun` splits its input. -/
theorem digitRun_append (s : List Char) :
    (digitRun s).1 ++ (digitRun s).2 = s := by
  induction s with
  | nil => rfl
  | cons c cs ih =>
    cases hd : isDig c
    · simp [digitRun, hd]
    · simp [digitRun, hd, ih]

/-- Every character of the run is a digit. -/
theorem digitRun_digits (s : List Char) :
    ∀ c ∈ (digitRun s).1, isDig c = true := by
  induction s with
  | nil => intro c hc; simp [digitRun] at hc
  | cons c cs ih =>
    intro x hx
    cases hd : isDig c
    · simp [digitRun, hd] at hx
    · simp [digitRun, hd] at hx
      rcases hx with h | h
      · subst h; exact hd
      · exact ih x h

/-- The TIME pattern cannot match where a nonempty digit run is followed by
a space: the colon it needs is never there. -/
theorem timeMatch_after_digits {d : Char} {ds rest2 : List Char}
    (hds : ∀ x ∈ d :: ds, isDig x = true) :
    timeMatch ((d :: ds) ++ ' ' :: rest2) = none := by
  have hd : isDig d = true := hds d (by simp)
  have hsp : isDig ' ' = false := by decide
  have hspc : ((' ' : Char) == ':') = false := by decide
  cases ds with
  | nil => simp [timeMatch, hd, hsp, timeTail, hspc]
  | cons e es =>
    have he : isDig e = true := hds e (by simp)
    cases es with
    | nil => simp [timeMatch, hd, he, timeTail, hspc, digit_ne_colon he]
    | cons f fs =>
      have hf : isDig f = true := hds f (by simp)
      simp [timeMatch, hd, he, timeTail, digit_ne_colon he, digit_ne_colon hf]

/-- Where the TIME pattern matches, the composite token wins the whole
alternation: every earlier rule fails at a digit. -/
theorem firstMatch_time {s lex rest : List Char}
    (h : timeMatch s = some (lex, rest)) :
    firstMatchIn rules s = some ("TIME", lex, rest) := by
  cases s with
  | nil => simp [timeMatch] at h
  | cons c cs =>
    have hc : isDig c = true := by
      cases hdig : isDig c with
      | true => rfl
      | false => simp [timeMatch, hdig] at h
    simp only [rules, firstMatchIn, withName,
      matchAlts_digit_none hc eventAlts (by decide),
      matchAlts_digit_none hc sensorAlts (by decide),
      matchAlts_digit_none hc deviceAlts (by decide),
      matchAlts_digit_none hc operationAlts (by decide),
      matchAlts_digit_none hc modeAlts (by decide), h]

/-- Where the TIME_INTERVAL pattern matches, it wins the whole alternation:
the earlier keyword rules fail at a digit and TIME needs a colon where this
match has its space. -/
theorem firstMatch_interval {s lex rest : List Char}
    (h : timeIntervalMatch s = some (lex, rest)) :
    firstMatchIn rules s = some ("TIME_INTERVAL", lex, rest) := by
  have hap := digitRun_append s
  have hdig := digitRun_digits s
  have h' := h
  unfold timeIntervalMatch at h'
  rcases hdr : digitRun s with ⟨ds, r⟩
  rw [hdr] at h' hap hdig
  cases ds with
  | nil => simp at h'
  | cons d ds' =>
    cases r with
    | nil => simp at h'
    | cons sp r2 =>
      cases hsp : sp == ' ' with
      | false => simp [hsp] at h'
      | true =>
        have hspeq : sp = ' ' := eq_of_beq hsp
        subst hspeq
        subst hap
        dsimp only at hdig h ⊢
        have htm := @timeMatch_after_digits d ds' r2 hdig
        have hd : isDig d = true := hdig d (by simp)
        simp only [List.cons_append] at htm h ⊢
        simp only [rules, firstMatchIn, withName,
          matchAlts_digit_none hd eventAlts (by decide),
          matchAlts_digit_none hd sensorAlts (by decide),
          matchAlts_digit_none hd deviceAlts (by decide),
          matchAlts_digit_none hd operationAlts (by decide),
          matchAlts_digit_none hd modeAlts (by decide), htm, h]

/-- C1: each of the five command shapes' minimal well-formed example
commands tokenizes to exactly the kind sequence of its shape, and
validate_syntax accepts it with the fixed confirmation message
"Valid command.". -/
theorem C1_five_shapes_valid :
    ((tokenize "on motion detected then turn on lights").map Prod.fst =
        ["EVENT", "SENSOR", "DETECTED", "THEN", "OPERATION", "DEVICE"] ∧
      validate_syntax (tokenize "on motion detected then turn on lights") =
        (true, "Valid command.")) ∧
    ((tokenize "schedule turn on watering at 6:00 AM").map Prod.fst =
        ["EVENT", "OPERATION", "DEVICE", "AT", "TIME"] ∧
      validate_syntax (tokenize "schedule turn on watering at 6:00 AM") =
        (true, "Valid command.")) ∧
    ((tokenize "if temperature > 30 then turn on AC").map Prod.fst =
        ["EVENT", "SENSOR", "OPERATOR", "NUMBER", "THEN", "OPERATION", "DEVICE"] ∧
      validate_syntax (tokenize "if temperature > 30 then turn on AC") =
        (true, "Valid command.")) ∧
    ((tokenize "repeat check temperature every 10 minutes").map Prod.fst =
        ["EVENT", "OPERATION", "SENSOR", "EVERY", "TIME_INTERVAL"] ∧
      validate_syntax (tokenize "repeat check temperature every 10 minutes") =
        (true, "Valid command.")) ∧
    ((tokenize "activate night mode from 10:00 PM to 6:00 AM").map Prod.fst =
        ["EVENT", "MODE", "FROM_TO", "TIME", "FROM_TO", "TIME"] ∧
      validate_syntax (tokenize "activate night mode from 10:00 PM to 6:00 AM") =
        (true, "Valid command.")) := by
  decide

/-- C2: evaluation at the failing input
"if temperature > 30 then turn on AC fan". A THEN token IS present and
rules (a) and (b) do not match, yet both diagnostic chains return rule (c)'s
then-required message: the code tests lowercase "then" against the uppercase
kind tags, which never holds, so the check documented as "then is missing"
fires regardless of the THEN token. -/
theorem C2_then_check_vacuous :
    "THEN" ∈ (tokenize "if temperature > 30 then turn on AC fan").map Prod.fst ∧
    validate_syntax (tokenize "if temperature > 30 then turn on AC fan") =
      (false, "Syntax error in command.") ∧
    condWhen "if temperature > 30 then turn on AC fan" = false ∧
    condOpNoNum (tokenize "if temperature > 30 then turn on AC fan") = false ∧
    FlowScriptX.validate_invalid_command "if temperature > 30 then turn on AC fan"
        (tokenize "if temperature > 30 then turn on AC fan") =
      "The 'then' keyword is required before 'start AC'." ∧
    Flowscript2.validate_invalid_command "if temperature > 30 then turn on AC fan"
        (tokenize "if temperature > 30 then turn on AC fan") =
      "The 'then' keyword is required before 'start AC'." := by
  decide

/-- C3 counterexample: the raw text "schedule at 6:00 AM 14:99 PM" contains
an out-of-range time-like substring (14:99 PM) and rules (a)-(d) do not
match, yet the diagnostic is the generic fallback, not the invalid-time
message: the code inspects only the leftmost match (6:00 AM), which is in
range. -/
theorem C3_counterexample :
    anyBadTime "schedule at 6:00 AM 14:99 PM".data = true ∧
    condWhen "schedule at 6:00 AM 14:99 PM" = false ∧
    condOpNoNum (tokenize "schedule at 6:00 AM 14:99 PM") = false ∧
    condIfNoThen "schedule at 6:00 AM 14:99 PM"
      (tokenize "schedule at 6:00 AM 14:99 PM") = false ∧
    condOpenLights (tokenize "schedule at 6:00 AM 14:99 PM") = false ∧
    FlowScriptX.validate_invalid_command "schedule at 6:00 AM 14:99 PM"
        (tokenize "schedule at 6:00 AM 14:99 PM") =
      "Error: Invalid command. Ensure your syntax follows the required format." ∧
    FlowScriptX.validate_invalid_command "schedule at 6:00 AM 14:99 PM"
        (tokenize "schedule at 6:00 AM 14:99 PM") ≠
      "Invalid time format. Ensure hours are between 1-12 and minutes between 00-59." := by
  decide

/-- C3 as amended: when rules (a)-(d) do not match, the invalid-time
diagnostic fires if and only if the LEFTMOST H:MM AM/PM match of the raw
text exists and has hour outside 1-12 or minute outside 0-59; out-of-range
substrings after an earlier in-range match do not trigger it. -/
theorem C3_leftmost_time_only (command : String) (tokens : List Token)
    (ha : condWhen command = false) (hb : condOpNoNum tokens = false)
    (hc : condIfNoThen command tokens = false)
    (hd : condOpenLights tokens = false) :
    (FlowScriptX.validate_invalid_command command tokens =
        "Invalid time format. Ensure hours are between 1-12 and minutes between 00-59.")
      ↔ condBadTime command = true := by
  unfold FlowScriptX.validate_invalid_command
  rw [ha, hb, hc, hd]
  cases hbt : condBadTime command
  · simp only [hbt, Bool.false_eq_true, if_false, iff_false]
    intro h
    split at h
    · exact absurd h (by decide)
    · split at h
      · exact absurd h (by decide)
      · split at h
        · exact absurd h (by decide)
        · exact absurd h (by decide)
  · simp [hbt]

/-- C3 witness: a command whose leftmost time-like substring is out of
range receives the invalid-time diagnostic. -/
theorem C3_leftmost_time_only_witness :
    FlowScriptX.validate_invalid_command "schedule 14:99 PM"
        (tokenize "schedule 14:99 PM") =
      "Invalid time format. Ensure hours are between 1-12 and minutes between 00-59." :=
  (C3_leftmost_time_only "schedule 14:99 PM" (tokenize "schedule 14:99 PM")
    (by decide) (by decide) (by decide) (by decide)).mpr (by decide)

/-- C4 counterexample: the empty input tokenizes to zero tokens, but the
message the program reports for it is the diagnostic chain's generic
fallback, not "Empty command". -/
theorem C4_counterexample :
    tokenize "" = [] ∧
    reportedResult "" =
      (false, "Error: Invalid command. Ensure your syntax follows the required format.") ∧
    (reportedResult "").2 ≠ "Empty command" ∧
    (reportedResult "").2 ≠ "Empty command." := by
  decide

/-- C4 as amended: validate_syntax itself answers invalid/"Empty command."
for zero tokens without evaluating any diagnostic rule, but the per-line
driver then calls validate_invalid_command for every invalid input, so the
message actually reported for a zero-token input is the diagnostic chain's
output. -/
theorem C4_empty_reported_via_chain :
    validate_syntax ([] : List Token) = (false, "Empty command.") ∧
    tokenize "" = [] ∧
    reportedResult "" = (false, FlowScriptX.validate_invalid_command "" []) ∧
    reportedResult "" =
      (false, "Error: Invalid command. Ensure your syntax follows the required format.") := by
  decide

/-- C5 counterexample: at the position where the tokenizer emits its token
for the input "door", TWO distinct rule patterns match (SENSOR and DEVICE),
refuting the claim that exactly one rule can match at every emitting
position. -/
theorem C5_counterexample :
    tokenize "door" = [("SENSOR", "door")] ∧
    matchAlts sensorAlts "door".data = some ("door".data, []) ∧
    matchAlts deviceAlts "door".data = some ("door".data, []) := by
  decide

/-- C5 as amended: ambiguous substrings DO exist in the current rule set:
"door" is matched by both the SENSOR and the DEVICE patterns; it is
classified SENSOR only because SENSOR is declared first, and moving DEVICE
ahead of SENSOR would classify it DEVICE, so classification depends on the
declaration order. -/
theorem C5_door_is_ambiguous :
    matchAlts sensorAlts "door".data = some ("door".data, []) ∧
    matchAlts deviceAlts "door".data = some ("door".data, []) ∧
    firstMatchIn rules "door".data = some ("SENSOR", "door".data, []) ∧
    firstMatchIn rulesDeviceFirst "door".data = some ("DEVICE", "door".data, []) := by
  decide

/-- C6 counterexample: a time written with lowercase "am" IS recognized as a
single Time token, refuting the claim that the Time class matches
case-sensitively. -/
theorem C6_counterexample :
    (tokenize "6:00 am").map Prod.fst = ["TIME"] ∧
    tokenize "6:00 am" = [("TIME", "6:00 am")] := by
  decide

/-- C6 as amended: IGNORECASE is given to the whole composite regex, so the
keyword-like classes AND the letter parts of Time (AM/PM) and TimeInterval
(seconds/minutes/hours) all match case-insensitively; Number and Operator
contain no cased characters, so case-sensitivity is moot for them. -/
theorem C6_ignorecase_is_global :
    tokenize "6:00 am" = [("TIME", "6:00 am")] ∧
    tokenize "6:00 Pm" = [("TIME", "6:00 Pm")] ∧
    tokenize "10 MINUTES" = [("TIME_INTERVAL", "10 MINUTES")] ∧
    tokenize "ON MOTION DETECTED THEN TURN ON LIGHTS" =
      [("EVENT", "ON"), ("SENSOR", "MOTION"), ("DETECTED", "DETECTED"),
       ("THEN", "THEN"), ("OPERATION", "TURN ON"), ("DEVICE", "LIGHTS")] := by
  decide

/-- C7 counterexample: the input "123:45 PM" contains the span "23:45 PM"
of the form H:MM AM/PM (the tokenizer's own TIME pattern matches it at
position 1), yet no Time token is emitted: the leading digits make NUMBER
win at position 0, and the minute digits "45" are emitted as a bare Number
token. -/
theorem C7_counterexample :
    timeMatch ("123:45 PM".data.drop 1) = some ("23:45 PM".data, []) ∧
    tokenize "123:45 PM" = [("NUMBER", "123"), ("NUMBER", "45")] := by
  decide

/-- C7 as amended: a span of the form H:MM AM/PM (resp. N
seconds/minutes/hours) AT WHICH THE SCANNER ATTEMPTS A MATCH is always
emitted as a single Time (resp. TimeInterval) token - the composite
patterns do take priority over the bare Number pattern there - but a span
whose start the scanner never reaches (e.g. one immediately preceded by
further digits) can be decomposed, its numerals emitted as bare Number
tokens. -/
theorem C7_composite_wins_at_scan_position :
    (∀ s lex rest : List Char, timeMatch s = some (lex, rest) →
      firstMatchIn rules s = some ("TIME", lex, rest)) ∧
    (∀ s lex rest : List Char, timeIntervalMatch s = some (lex, rest) →
      firstMatchIn rules s = some ("TIME_INTERVAL", lex, rest)) ∧
    tokenize "6:00 AM" = [("TIME", "6:00 AM")] ∧
    tokenize "10 minutes" = [("TIME_INTERVAL", "10 minutes")] :=
  ⟨fun _ _ _ h => firstMatch_time h,
   fun _ _ _ h => firstMatch_interval h,
   by decide, by decide⟩

/-- C8: "if temperature > 30 start AC" is invalid, its kinds include
OPERATOR and NUMBER but no THEN, rule (b)'s condition fails (a NUMBER is
present), and the diagnostic is rule (c)'s then-required message. -/
theorem C8_condition_priority :
    validate_syntax (tokenize "if temperature > 30 start AC") =
      (false, "Syntax error in command.") ∧
    "OPERATOR" ∈ (tokenize "if temperature > 30 start AC").map Prod.fst ∧
    "NUMBER" ∈ (tokenize "if temperature > 30 start AC").map Prod.fst ∧
    "THEN" ∉ (tokenize "if temperature > 30 start AC").map Prod.fst ∧
    condOpNoNum (tokenize "if temperature > 30 start AC") = false ∧
    FlowScriptX.validate_invalid_command "if temperature > 30 start AC"
        (tokenize "if temperature > 30 start AC") =
      "The 'then' keyword is required before 'start AC'." ∧
    FlowScriptX.validate_invalid_command "if temperature > 30 start AC"
        (tokenize "if temperature > 30 start AC") ≠
      "Missing value after operator. Ensure a numeric condition, e.g., 'if temperature > 30 then turn on AC'." := by
  decide

/-- C9 counterexample: on "if temperature > then turn on AC" (an OPERATOR
token but no NUMBER token) the two files' diagnostic engines disagree:
FlowScriptX.py's rule (b) answers the missing-value message while
flowscript2.py, which has no rule (b), answers the then-required message. -/
theorem C9_counterexample :
    FlowScriptX.validate_invalid_command "if temperature > then turn on AC"
        (tokenize "if temperature > then turn on AC") =
      "Missing value after operator. Ensure a numeric condition, e.g., 'if temperature > 30 then turn on AC'." ∧
    Flowscript2.validate_invalid_command "if temperature > then turn on AC"
        (tokenize "if temperature > then turn on AC") =
      "The 'then' keyword is required before 'start AC'." ∧
    FlowScriptX.validate_invalid_command "if temperature > then turn on AC"
        (tokenize "if temperature > then turn on AC") ≠
      Flowscript2.validate_invalid_command "if temperature > then turn on AC"
        (tokenize "if temperature > then turn on AC") := by
  decide

/-- C9 as amended: the two diagnostic engines agree exactly on the rules
they share: whenever FlowScriptX.py's three extra rules (b), (g) and (h) do
not fire, the two functions return the identical message. -/
theorem C9_agree_without_extra_rules (command : String) (tokens : List Token)
    (hb : condOpNoNum tokens = false)
    (hg : condOnNoThen command tokens = false)
    (hh : condRepeatNoEvery command tokens = false) :
    FlowScriptX.validate_invalid_command command tokens =
      Flowscript2.validate_invalid_command command tokens := by
  unfold FlowScriptX.validate_invalid_command Flowscript2.validate_invalid_command
  rw [hb, hg, hh]
  simp

/-- C9 witness: both engines answer the same message on a shared-rule
input. -/
theorem C9_agree_witness :
    FlowScriptX.validate_invalid_command "lights" (tokenize "lights") =
      Flowscript2.validate_invalid_command "lights" (tokenize "lights") :=
  C9_agree_without_extra_rules "lights" (tokenize "lights")
    (by decide) (by decide) (by decide)

/-- C10 counterexample: in the input ">==" (which contains the substring
">=") the "=" following the ">" is NOT dropped: it is emitted as part of an
"==" Operator token, so the lexemes of the emitted tokens cover the whole
input. -/
theorem C10_counterexample :
    containsSub ">=".data ">==".data = true ∧
    tokenize ">==" = [("OPERATOR", ">"), ("OPERATOR", "==")] ∧
    ((tokenize ">==").map Prod.snd).foldl (fun a b => a ++ b) "" = ">==" := by
  decide

/-- C10 as amended: a ">" (resp. "<") at a scan position is always emitted
as a one-character Operator token - never as ">="/"<=", since the
one-character alternatives are listed first - and the "=" that follows is
dropped unless it is immediately followed by another "=" (which forms an
"==" Operator token); in particular "if temperature >= 30 then turn on AC"
tokenizes identically to its ">" variant and validates as valid. -/
theorem C10_one_char_operator_wins :
    (∀ cs : List Char, firstMatchIn rules ('>' :: cs) =
      some ("OPERATOR", ['>'], cs)) ∧
    (∀ cs : List Char, firstMatchIn rules ('<' :: cs) =
      some ("OPERATOR", ['<'], cs)) ∧
    tokenize ">= 30" = [("OPERATOR", ">"), ("NUMBER", "30")] ∧
    tokenize "if temperature >= 30 then turn on AC" =
      tokenize "if temperature > 30 then turn on AC" ∧
    validate_syntax (tokenize "if temperature >= 30 then turn on AC") =
      (true, "Valid command.") :=
  ⟨fun _ => rfl, fun _ => rfl, by decide, by decide, by decide⟩
